import Mathlib

/-!
Shallow embedding of `skyportal/facility_apis/swift.py`: the Swift
facility adapter (request builders, submitter, result fetcher, and
observation backfill).  Python exceptions are modelled with `Except`
over an explicit error type; Python dictionaries become structures of
`Option`-typed fields (a `none` field models an absent key, and reading
it raises `keyError`); external HTTP calls and third-party library
results (swifttools, astropy) are passed in as explicit oracle values
or functions, since only the adapter's own logic is under verification.
-/

/-- Python exception classes raised (directly or by builtins) in the module. -/
inductive PyErr where
  | valueError (msg : String)
  | keyError (key : String)
  | indexError
  | jsonError
deriving DecidableEq, Repr

/-- A Python number as carried in a JSON payload: the runtime type
distinguishes `int` from `float`.  A float is abstracted by its
truncation toward zero plus a flag recording whether the fractional
part is nonzero; the operations used in the module (`int(x)` and the
integer-only format code `d`) depend only on that data. -/
inductive PyNum where
  | int (n : Int)
  | float (trunc : Int) (fracNonzero : Bool)
deriving DecidableEq, Repr

/-- Python `int()` applied to a number: identity on ints, truncation toward
zero on floats. -/
def pyIntOf : PyNum → Int
  | .int n => n
  | .float t _ => t

/-- Accumulate a decimal digit list into a natural number. -/
def digitsToNat : List Char → Nat → Nat
  | [], acc => acc
  | c :: cs, acc => digitsToNat cs (acc * 10 + (c.toNat - 48))

/-- Python `int()` applied to a string: surrounding spaces allowed, an
optional sign, then a nonempty run of decimal digits. -/
def parsePyInt (s : String) : Option Int :=
  let cs := s.toList.dropWhile (· = ' ')
  let cs := (cs.reverse.dropWhile (· = ' ')).reverse
  match cs with
  | [] => none
  | c :: rest =>
    let signed : Int × List Char :=
      if c = '-' then (-1, rest) else if c = '+' then (1, rest) else (1, c :: rest)
    if signed.2 ≠ [] ∧ signed.2.all Char.isDigit then
      some (signed.1 * (digitsToNat signed.2 0 : Int))
    else none

/-- Error message of the urgency conversion wrapper (swift.py line 201). -/
def urgencyConvertMsg : String := "Could not convert urgency to a valid integer"

/-- Error message of the urgency range check (swift.py lines 203-205). -/
def urgencyRangeMsg : String := "urgency must be one of 0, 1, 2, 3, or 4"

/-- Error message of the obs_type membership check (swift.py line 212). -/
def obsTypeMsg : String := "obs_type not an allowed value."

/-- Error message of Python `tuple.index` when the value is absent
(swift.py line 215). -/
def tupleIndexMsg : String := "x not in tuple"

/-- Error message of the uvot_just requiredness check (swift.py lines 221-223). -/
def uvotJustMsg : String := "uvot_just is required when the UVOT mode select is 0x0270 (ToO Upload Mode)."

/-- Error message of the integer-only format code applied to a float
(swift.py line 189). -/
def formatDMsg : String := "Unknown format code d for object of type float"

/-- Error message of the missing-altdata precondition (swift.py lines 77, 436, 517). -/
def missingAllocMsg : String := "Missing allocation information."

/-- Error message of the submit dispatch fallthrough (swift.py line 583). -/
def invalidRequestTypeMsg : String := "Invalid request type."

/-- Error message of the incomplete-job check in `get` (swift.py line 450). -/
def notReadyMsg : String := "Result not yet available. Please try again later."

/-- Error message of the date ordering check in `retrieve` (swift.py line 83). -/
def dateOrderMsg : String := "start_date must be before end_date."

/-- Error message modelling a failed astropy iso `Time` parse (swift.py line 259). -/
def isoParseMsg : String := "Input values did not match the format class iso"

/-- Error message modelling a failing external `ObsQuery` construction
(swift.py lines 316-322). -/
def obsQueryFailedMsg : String := "ObsQuery failed"

/-- Python `f"{x:d} days"` applied to a payload number (swift.py line 189):
succeeds only when the value is an `int` at runtime. -/
def format_d_days : PyNum → Except PyErr String
  | .int n => .ok (toString n ++ " days")
  | .float _ _ => .error (.valueError formatDMsg)

/-- Allocation.altdata credential bundle; each field models one dict key. -/
structure Altdata where
  username : Option String
  secret : Option String
  XRT_UserID : Option String
  notification_type : Option String
deriving DecidableEq, Repr

/-- The target object of a followup request (only the fields the module reads). -/
structure Obj where
  id : String
  ra : Int
  dec : Int
deriving DecidableEq, Repr

/-- The free-form `request.payload` dict: every key the module reads,
as an `Option` (a `none` models an absent key). -/
structure Payload where
  request_type : Option String
  start_date : Option String
  end_date : Option String
  XRT : Option Bool
  UVOT : Option Bool
  BAT : Option Bool
  detornot : Option Bool
  centMeth : Option String
  detMeth : Option String
  T0 : Option String
  poserr : Option PyNum
  source_type : Option String
  exposure_time : Option PyNum
  monitoring_freq : Option PyNum
  exposure_counts : Option PyNum
  opt_mag : Option PyNum
  opt_filt : Option String
  xrt_countrate : Option PyNum
  exp_time_just : Option String
  immediate_objective : Option String
  urgency : Option String
  obs_type : Option String
  uvot_mode : Option String
  science_just : Option String
  uvot_just : Option String
deriving DecidableEq, Repr

/-- The payload dict with every key absent. -/
def Payload.empty : Payload :=
  { request_type := none, start_date := none, end_date := none,
    XRT := none, UVOT := none, BAT := none,
    detornot := none, centMeth := none, detMeth := none, T0 := none, poserr := none,
    source_type := none, exposure_time := none, monitoring_freq := none,
    exposure_counts := none, opt_mag := none, opt_filt := none, xrt_countrate := none,
    exp_time_just := none, immediate_objective := none, urgency := none,
    obs_type := none, uvot_mode := none, science_just := none, uvot_just := none }

/-- The fixed UVOT mode table (swift.py lines 36-53): hex code paired with its
display label, in source order. -/
def modes : List (String × String) :=
  [("0x9999", "0x9999 - Default (Filter of the day)"),
   ("0x30ed", "0x30ed - U+B+V+All UV"),
   ("0x223f", "0x223f - U+B+V+All UV (UV weighted, SN Mode)"),
   ("0x0270", "0x0270 - U+B+V+All UV (ToO Upload Mode)"),
   ("0x209a", "0x209a - U+B+V"),
   ("0x308f", "0x308f - All UV"),
   ("0x2019", "0x2019 - White"),
   ("0x018c", "0x018c - UVW1"),
   ("0x011e", "0x011e - UVW2"),
   ("0x015a", "0x015a - UVM2"),
   ("0x01aa", "0x01aa - U band"),
   ("0x2016", "0x2016 - B band"),
   ("0x2005", "0x2005 - V band"),
   ("0x122f", "0x122f - Grism 1 (UV)"),
   ("0x1230", "0x1230 - Grism 2 (Visible)"),
   ("0x0ff3", "0x0ff3 - Blocked (in case of too bright star)")]

/-- The tuple `modes_keys` (swift.py line 55). -/
def modes_keys : List String := modes.map Prod.fst

/-- The tuple `modes_values` (swift.py line 55). -/
def modes_values : List String := modes.map Prod.snd

/-- Python `tuple.index`: position of the first occurrence, `none` when absent. -/
def listIndex (x : String) : List String → Option Nat
  | [] => none
  | a :: t => if a = x then some 0 else (listIndex x t).map (· + 1)

/-- The mode hex key selected by a display label: `modes_keys[modes_values.index x]`. -/
def modeKeyOf (x : String) : String :=
  modes_keys.getD ((listIndex x modes_values).getD 0) ""

/-- The Swift_TOO object as populated by `UVOTXRTRequest._build_payload`
(swift.py lines 179-225); only the attribute assignments are recorded. -/
structure SwiftTOO where
  username : String
  shared_secret : String
  source_name : String
  ra : Int
  dec : Int
  source_type : String
  exp_time_per_visit : PyNum
  monitoring_freq : String
  num_of_visits : Int
  opt_mag : Option PyNum
  opt_filt : Option String
  xrt_countrate : Option PyNum
  exp_time_just : String
  immediate_objective : String
  urgency : Int
  obs_type : String
  uvot_mode : String
  science_just : String
  uvot_just : Option String
deriving DecidableEq, Repr

/-- Transcription of `UVOTXRTRequest._build_payload` (swift.py lines 163-225).
Dict reads become matches on the `Option` fields, in source order; the
`try/except` around the urgency conversion re-raises every failure there
(including a missing key) as the conversion `ValueError`. -/
def build_too_payload (altdata : Altdata) (obj : Obj) (p : Payload) :
    Except PyErr SwiftTOO :=
  match altdata.username with
  | none => .error (.keyError ("username"))
  | some username =>
  match altdata.secret with
  | none => .error (.keyError ("secret"))
  | some shared_secret =>
  match p.source_type with
  | none => .error (.keyError ("source_type"))
  | some source_type =>
  match p.exposure_time with
  | none => .error (.keyError ("exposure_time"))
  | some exp_time_per_visit =>
  match p.monitoring_freq with
  | none => .error (.keyError ("monitoring_freq"))
  | some (PyNum.float _ _) => .error (.valueError formatDMsg)
  | some (PyNum.int mfreq) =>
  match p.exposure_counts with
  | none => .error (.keyError ("exposure_counts"))
  | some ec =>
  match p.exp_time_just with
  | none => .error (.keyError ("exp_time_just"))
  | some exp_time_just =>
  match p.immediate_objective with
  | none => .error (.keyError ("immediate_objective"))
  | some immediate_objective =>
  match p.urgency with
  | none => .error (.valueError urgencyConvertMsg)
  | some us =>
  match parsePyInt us with
  | none => .error (.valueError urgencyConvertMsg)
  | some urgency =>
  if urgency < 0 ∨ urgency > 4 then .error (.valueError urgencyRangeMsg)
  else
  match p.obs_type with
  | none => .error (.keyError ("obs_type"))
  | some obs_type =>
  if obs_type ∈ ["Spectroscopy", "Light Curve", "Position", "Timing"] then
    match p.uvot_mode with
    | none => .error (.keyError ("uvot_mode"))
    | some um =>
    match listIndex um modes_values with
    | none => .error (.valueError tupleIndexMsg)
    | some idx =>
    match p.science_just with
    | none => .error (.keyError ("science_just"))
    | some science_just =>
    if modes_keys.getD idx "" ≠ "0x9999" then
      match p.uvot_just with
      | none => .error (.valueError uvotJustMsg)
      | some uj =>
        if uj = "" then .error (.valueError uvotJustMsg)
        else
          .ok { username := username, shared_secret := shared_secret,
                source_name := obj.id, ra := obj.ra, dec := obj.dec,
                source_type := source_type, exp_time_per_visit := exp_time_per_visit,
                monitoring_freq := toString mfreq ++ " days", num_of_visits := pyIntOf ec,
                opt_mag := p.opt_mag, opt_filt := p.opt_filt,
                xrt_countrate := p.xrt_countrate, exp_time_just := exp_time_just,
                immediate_objective := immediate_objective, urgency := urgency,
                obs_type := obs_type, uvot_mode := modes_keys.getD idx "",
                science_just := science_just, uvot_just := some uj }
    else
      .ok { username := username, shared_secret := shared_secret,
            source_name := obj.id, ra := obj.ra, dec := obj.dec,
            source_type := source_type, exp_time_per_visit := exp_time_per_visit,
            monitoring_freq := toString mfreq ++ " days", num_of_visits := pyIntOf ec,
            opt_mag := p.opt_mag, opt_filt := p.opt_filt,
            xrt_countrate := p.xrt_countrate, exp_time_just := exp_time_just,
            immediate_objective := immediate_objective, urgency := urgency,
            obs_type := obs_type, uvot_mode := modes_keys.getD idx "",
            science_just := science_just, uvot_just := none }
  else .error (.valueError obsTypeMsg)

/-- The XRTProductRequest global parameters as populated by
`XRTAPIRequest._build_payload` (swift.py lines 243-284). -/
structure XRTProductReq where
  userID : String
  getTargs : Bool
  centroid : Bool
  name : String
  ra : Int
  dec : Int
  centMeth : String
  detMeth : String
  useSXPS : Bool
  T0 : Int
  posErr : PyNum
deriving DecidableEq, Repr

/-- Transcription of `XRTAPIRequest._build_payload` (swift.py lines 243-284).
The astropy iso time parse is an oracle function `parse_iso` valued in
seconds; `T0` of the product request is the difference to the fixed MET
epoch 2001-01-01 00:00:00, in seconds (`(T0 - MET).jd * 86400`). -/
def build_xrt_payload (altdata : Altdata) (obj : Obj) (p : Payload)
    (parse_iso : String → Option Int) : Except PyErr XRTProductReq :=
  match p.T0 with
  | none => .error (.keyError ("T0"))
  | some t0s =>
  match parse_iso t0s with
  | none => .error (.valueError isoParseMsg)
  | some t0sec =>
  match parse_iso ("2001-01-01 00:00:00") with
  | none => .error (.valueError isoParseMsg)
  | some metsec =>
  match altdata.XRT_UserID with
  | none => .error (.keyError ("XRT_UserID"))
  | some uid =>
  match p.centMeth with
  | none => .error (.keyError ("centMeth"))
  | some cm =>
  match p.detMeth with
  | none => .error (.keyError ("detMeth"))
  | some dm =>
  match p.poserr with
  | none => .error (.keyError ("poserr"))
  | some pe =>
    .ok { userID := uid, getTargs := true, centroid := p.detornot.getD false,
          name := obj.id, ra := obj.ra, dec := obj.dec,
          centMeth := cm, detMeth := dm, useSXPS := false,
          T0 := t0sec - metsec, posErr := pe }

/-- A row of the external observation archive (`ObsQuery` result), together
with the decoded UVOT mode of the row (`UVOT_mode(row.uvot).entries`),
which the external swifttools library supplies. -/
structure UVOTModeEntry where
  filter_name : String
deriving DecidableEq, Repr

/-- Fields of one archive row read by `fetch_observations` and the data paths. -/
structure ObsRow where
  obsid : Int
  uvot_entries : Option (List UVOTModeEntry)
  ra_object : Option Int
  dec_object : Option Int
  obstime : Int
  exposure_seconds : Int
  targname : String
deriving DecidableEq, Repr

/-- The HTTP response of the ToO submission endpoint (the fields read on
that path: `status_code` and the byte body `content`). -/
structure HTTPResponse where
  status_code : Nat
  reason : String
  content : String
deriving DecidableEq, Repr

/-- The JSON body returned by the XRT job endpoint, as far as the module
reads it (`OK`, `ERROR`, `listErr`); each field `none` models a missing key. -/
structure XRTBody where
  OK : Option Int
  ERROR : Option String
  listErr : Option String
deriving DecidableEq, Repr

/-- The HTTP response of the XRT job endpoint; `body` is `json.loads(r.text)`,
with `none` modelling a body that is not valid JSON. -/
structure XRTResponse where
  status_code : Nat
  reason : String
  body : Option XRTBody
deriving DecidableEq, Repr

/-- A serialized HTTP response, as stored in a FacilityTransaction. -/
inductive SerializedResponse where
  | too (r : HTTPResponse)
  | xrt (r : XRTResponse)
deriving DecidableEq, Repr

/-- The FacilityTransaction audit record: serialized outbound request,
serialized response, and the initiating user (swift.py lines 547-552, 570-575). -/
structure FacilityTransaction where
  request : String
  response : SerializedResponse
  initiator_id : Nat
deriving DecidableEq, Repr

/-- A completed HTTP exchange against the ToO submission endpoint:
the serialized outbound request paired with the response received. -/
structure Exchange where
  request : String
  response : HTTPResponse
deriving DecidableEq, Repr

/-- A completed HTTP exchange against the XRT job endpoint. -/
structure XRTExchange where
  request : String
  response : XRTResponse
deriving DecidableEq, Repr

/-- A transaction already stored on the request, as read back by `get`
(`req.transactions[-1].response["content"]`). -/
structure StoredTransaction where
  response_content : String
deriving DecidableEq, Repr

/-- The FollowupRequest fields the module reads. -/
structure FollowupRequest where
  id : Nat
  obj : Obj
  altdata : Option Altdata
  payload : Payload
  status : String
  last_modified_by_id : Nat
  transactions : List StoredTransaction
deriving DecidableEq, Repr

/-- Python single-quote character, for rendering Python repr strings. -/
def squote : String := "\x27"

/-- Python `repr` of a string (single-quoted); exact for strings without
quotes or backslashes, which is all this module ever interpolates. -/
def pyStrRepr (s : String) : String := squote ++ s ++ squote

/-- Python `f"{(a, b)}"`: the repr of a pair of strings. -/
def pyPairRepr (a b : String) : String :=
  "(" ++ pyStrRepr a ++ ", " ++ pyStrRepr b ++ ")"

/-- Python `f"{r.content}"` where `content` is bytes: the bytes repr. -/
def pyBytesRepr (s : String) : String := "b" ++ squote ++ s ++ squote

/-- The `XRT/UVOT ToO` branch of `UVOTXRTAPI.submit` (swift.py lines 519-554):
build the ToO payload, run the (result-ignored) facility validation, post the
signed token, set the status from the HTTP status code, and record exactly one
FacilityTransaction pairing the outbound request with the response.  The
completed HTTP exchange is the oracle `ex`. -/
def submit_too (altdata : Altdata) (obj : Obj) (p : Payload) (lmb : Nat)
    (ex : Exchange) : Except PyErr (String × List FacilityTransaction) :=
  match build_too_payload altdata obj p with
  | .error e => .error e
  | .ok _too =>
    let st := if ex.response.status_code = 200 then "submitted"
              else "rejected: " ++ pyBytesRepr ex.response.content
    .ok (st, [{ request := ex.request, response := .too ex.response,
                initiator_id := lmb }])

/-- The `XRT API` branch of `UVOTXRTAPI.submit` (swift.py lines 556-577):
build the job payload, post it, parse the response body as JSON, set the
status from the status code and the facility `OK` flag, and record exactly
one FacilityTransaction pairing the outbound request with the response. -/
def submit_xrt (altdata : Altdata) (obj : Obj) (p : Payload) (lmb : Nat)
    (parse_iso : String → Option Int) (ex : XRTExchange) :
    Except PyErr (String × List FacilityTransaction) :=
  match build_xrt_payload altdata obj p parse_iso with
  | .error e => .error e
  | .ok _req =>
  match ex.response.body with
  | none => .error .jsonError
  | some b =>
    if ex.response.status_code ≠ 200 then
      .ok ("rejected: " ++ ex.response.reason,
           [{ request := ex.request, response := .xrt ex.response,
              initiator_id := lmb }])
    else
      match b.OK with
      | none => .error (.keyError ("OK"))
      | some k =>
        if k = 0 then
          match b.ERROR with
          | none => .error (.keyError ("ERROR"))
          | some er =>
          match b.listErr with
          | none => .error (.keyError ("listErr"))
          | some le =>
            .ok ("rejected: " ++ pyPairRepr er le,
                 [{ request := ex.request, response := .xrt ex.response,
                    initiator_id := lmb }])
        else
          .ok ("submitted",
               [{ request := ex.request, response := .xrt ex.response,
                  initiator_id := lmb }])

/-- The `XRT/UVOT/BAT Data` branch of `UVOTXRTAPI.submit` (swift.py lines
579-581): construct the ObsQuery (reading the two date keys) and set the
status to the count of matching archive records; no transaction is created.
The archive result is the oracle `archive` (`none` models a failing query). -/
def submit_data (p : Payload) (archive : Option (List ObsRow)) :
    Except PyErr (String × List FacilityTransaction) :=
  match p.start_date with
  | none => .error (.keyError ("start_date"))
  | some _ =>
  match p.end_date with
  | none => .error (.keyError ("end_date"))
  | some _ =>
  match archive with
  | none => .error (.valueError obsQueryFailedMsg)
  | some rows => .ok ("Number of observations: " ++ toString rows.length, [])

/-- The result of a completed `submit` call: the status written to the
request, the FacilityTransactions added, the refresh signals pushed, and the
notification type dispatched (best-effort, failures swallowed). -/
structure SubmitResult where
  status : String
  transactions : List FacilityTransaction
  refreshSource : Bool
  refreshRequests : Bool
  notificationType : String
deriving DecidableEq, Repr

/-- The tail of `UVOTXRTAPI.submit` common to all branches (swift.py lines
585-621): refresh signals per the caller's flags, then notification dispatch
keyed by `altdata.get("notification_type", "none")`. -/
def finish_submit (alt : Altdata) (rs rr : Bool)
    (core : String × List FacilityTransaction) : SubmitResult :=
  { status := core.1, transactions := core.2,
    refreshSource := rs, refreshRequests := rr,
    notificationType := alt.notification_type.getD "none" }

/-- Transcription of `UVOTXRTAPI.submit` (swift.py lines 502-621): the
missing-altdata precondition, the dispatch on `payload["request_type"]`
(a missing key raises `KeyError`, an unknown value raises
`ValueError("Invalid request type.")`), and the common tail. -/
def swift_submit (req : FollowupRequest) (parse_iso : String → Option Int)
    (tooEx : Exchange) (xrtEx : XRTExchange) (archive : Option (List ObsRow))
    (rs rr : Bool) : Except PyErr SubmitResult :=
  match req.altdata with
  | none => .error (.valueError missingAllocMsg)
  | some alt =>
    match req.payload.request_type with
    | none => .error (.keyError ("request_type"))
    | some rt =>
      if rt = "XRT/UVOT ToO" then
        (submit_too alt req.obj req.payload req.last_modified_by_id tooEx).map
          (finish_submit alt rs rr)
      else if rt = "XRT API" then
        (submit_xrt alt req.obj req.payload req.last_modified_by_id parse_iso
          xrtEx).map (finish_submit alt rs rr)
      else if rt = "XRT/UVOT/BAT Data" then
        (submit_data req.payload archive).map (finish_submit alt rs rr)
      else .error (.valueError invalidRequestTypeMsg)

/-- A Comment entity as created by the result fetcher (swift.py lines 389-397,
463-472): text, target object, base64 attachment, and the bot flag. -/
structure Comment where
  text : String
  obj_id : String
  attachment_name : String
  attachment_bytes : String
  bot : Bool
deriving DecidableEq, Repr

/-- Python `filename.split("/")[-1]`. -/
def lastPathComponent (s : String) : String :=
  ((s.splitOn ("/")).getLast?).getD s

/-- The parsed content of the last stored transaction response as read by
`get` (swift.py lines 439-447): the four keys it extracts, each `none`
modelling a missing key. -/
structure XRTJobContent where
  OK : Option Int
  JobID : Option String
  URL : Option String
  jobPars : Option String
deriving DecidableEq, Repr

/-- The observable outcome of a `get` call: the exception (if any) it raised,
the Comments added, the status written (if any), whether a background
data download was scheduled, and the refresh signals pushed. -/
structure GetOutcome where
  error : Option PyErr
  comments : List Comment
  statusUpdate : Option String
  scheduledDownload : Bool
  refreshSource : Bool
  refreshRequests : Bool
deriving DecidableEq, Repr

/-- A `get` call that raises: nothing was added or written before any raise
site in the source, and the refresh pushes after the branch are not reached. -/
def abortGet (e : PyErr) : GetOutcome :=
  { error := some e, comments := [], statusUpdate := none,
    scheduledDownload := false, refreshSource := false, refreshRequests := false }

/-- Transcription of `UVOTXRTAPI.get` (swift.py lines 414-498).  External
pieces are oracles: `json_parse` for `json.loads` of the stored response
content, `parse_iso` for astropy time parsing inside the payload rebuild,
`complete` for the swifttools job-completeness predicate on the reconstructed
job state, and `products` for `downloadProducts` (key, filename, base64
bytes per product). -/
def swift_get (req : FollowupRequest)
    (json_parse : String → Option XRTJobContent)
    (parse_iso : String → Option Int) (complete : Bool)
    (products : List (String × String × String))
    (rs rr : Bool) : GetOutcome :=
  match req.altdata with
  | none => abortGet (.valueError missingAllocMsg)
  | some alt =>
  match req.payload.request_type with
  | none => abortGet (.keyError ("request_type"))
  | some rt =>
    if rt = "XRT API" then
      match req.transactions.getLast? with
      | none => abortGet .indexError
      | some tr =>
      match json_parse tr.response_content with
      | none => abortGet .jsonError
      | some content =>
      match build_xrt_payload alt req.obj req.payload parse_iso with
      | .error e => abortGet e
      | .ok _req =>
      match content.OK with
      | none => abortGet (.keyError ("OK"))
      | some _ =>
      match content.JobID with
      | none => abortGet (.keyError ("JobID"))
      | some _ =>
      match content.URL with
      | none => abortGet (.keyError ("URL"))
      | some _ =>
      match content.jobPars with
      | none => abortGet (.keyError ("jobPars"))
      | some _ =>
        if complete then
          { error := none
            comments := products.map (fun kf =>
              { text := "Swift XRT: " ++ kf.1
                obj_id := req.obj.id
                attachment_name := lastPathComponent kf.2.1
                attachment_bytes := kf.2.2
                bot := false })
            statusUpdate := some "Result posted as comment"
            scheduledDownload := false
            refreshSource := rs, refreshRequests := rr }
        else abortGet (.valueError notReadyMsg)
    else if rt = "XRT/UVOT/BAT Data" then
      match req.payload.start_date with
      | none => abortGet (.keyError ("start_date"))
      | some _ =>
      match req.payload.end_date with
      | none => abortGet (.keyError ("end_date"))
      | some _ =>
        { error := none, comments := [], statusUpdate := none,
          scheduledDownload := true, refreshSource := rs, refreshRequests := rr }
    else
      { error := none, comments := [], statusUpdate := none,
        scheduledDownload := false, refreshSource := rs, refreshRequests := rr }

/-- Transcription of `UVOTXRTMMAAPI.retrieve` (swift.py lines 62-92): the
missing-altdata precondition, the date ordering check, and the scheduling of
the archive fetch for the window.  Dates are modelled as integer timestamps
(the astropy `Time` conversion preserves their order); the `ok` value is the
window handed to the background executor. -/
def swift_retrieve (altdata : Option Altdata) (start_date end_date : Int) :
    Except PyErr (Int × Int) :=
  match altdata with
  | none => .error (.valueError missingAllocMsg)
  | some _ =>
    if start_date > end_date then .error (.valueError dateOrderMsg)
    else .ok (start_date, end_date)

/-- The normalized observation row inserted by the backfill
(swift.py lines 127-138). -/
structure Observation where
  observation_id : Int
  obstime : Int
  RA : Int
  Dec : Int
  seeing : Option PyNum
  limmag : Option PyNum
  exposure_time : Int
  filter : String
  processed_fraction : PyNum
  target_name : String
deriving DecidableEq, Repr

/-- Processing of one archive row in `fetch_observations` (swift.py lines
117-140): a row whose decoded mode has `entries is None` is skipped, a row
with a missing coordinate is skipped, otherwise the normalized observation
is built from the first mode entry; indexing an empty entry list raises. -/
def process_row (row : ObsRow) : Except PyErr (Option Observation) :=
  match row.uvot_entries with
  | none => .ok none
  | some entries =>
    match row.ra_object, row.dec_object with
    | some ra, some dec =>
      match entries with
      | [] => .error .indexError
      | e :: _ =>
        .ok (some { observation_id := row.obsid, obstime := row.obstime,
                    RA := ra, Dec := dec, seeing := none, limmag := none,
                    exposure_time := row.exposure_seconds,
                    filter := "uvot::" ++ e.filter_name,
                    processed_fraction := .float 1 false,
                    target_name := row.targname })
    | _, _ => .ok none

/-- The row loop of `fetch_observations` (swift.py lines 116-141): rows are
processed in order, skipped rows contribute nothing, and a raise aborts
the whole fetch. -/
def fetch_observations_rows : List ObsRow → Except PyErr (List Observation)
  | [] => .ok []
  | r :: rest =>
    match process_row r with
    | .error e => .error e
    | .ok none => fetch_observations_rows rest
    | .ok (some o) => (fetch_observations_rows rest).map (o :: ·)

/-- A concrete credential bundle used by the closed witnesses below. -/
def altW : Altdata :=
  { username := some ("u1"), secret := some ("s3cr3t"),
    XRT_UserID := some ("XU77"), notification_type := none }

/-- A concrete target object used by the closed witnesses below. -/
def objW : Obj := { id := "ZTF21abcd", ra := 10, dec := -20 }

/-- C6: with empty allocation altdata, `retrieve` fails before anything else;
with credentials present, `start_date > end_date` fails with the date-order
ValidationError and no fetch is scheduled, while `start_date <= end_date`
raises no such error and schedules the archive query for the window. -/
theorem retrieve_checks_altdata_and_date_order (alt : Altdata) (s e : Int) :
    (swift_retrieve none s e = .error (.valueError missingAllocMsg)) ∧
    (s > e → swift_retrieve (some alt) s e = .error (.valueError dateOrderMsg)) ∧
    (s ≤ e → swift_retrieve (some alt) s e = .ok (s, e)) := by
  refine ⟨rfl, ?_, ?_⟩
  · intro h
    simp [swift_retrieve, h]
  · intro h
    simp [swift_retrieve, not_lt.mpr h]

/-- Witness for C6 at concrete inputs. -/
theorem retrieve_checks_altdata_and_date_order_witness :
    swift_retrieve none 1 2 = .error (.valueError missingAllocMsg) ∧
    swift_retrieve (some altW) 5 3 = .error (.valueError dateOrderMsg) ∧
    swift_retrieve (some altW) 3 5 = .ok (3, 5) :=
  ⟨(retrieve_checks_altdata_and_date_order altW 1 2).1,
   (retrieve_checks_altdata_and_date_order altW 5 3).2.1 (by decide),
   (retrieve_checks_altdata_and_date_order altW 3 5).2.2 (by decide)⟩

/-- C7: a backfill row whose decoded UVOT mode has no entries, or whose
`ra_object` or `dec_object` is None, is dropped (contributing nothing to the
fetched list, without an error); every retained row takes its `filter` from
the first decoded mode entry as `uvot::<filter_name>`, with
`processed_fraction` 1.0 and `seeing`/`limmag` None. -/
theorem backfill_row_normalization (row : ObsRow) :
    (row.uvot_entries = none ∨ row.ra_object = none ∨ row.dec_object = none →
      process_row row = .ok none) ∧
    (∀ rest, process_row row = .ok none →
      fetch_observations_rows (row :: rest) = fetch_observations_rows rest) ∧
    (∀ obs, process_row row = .ok (some obs) →
      ∃ en rest, row.uvot_entries = some (en :: rest) ∧
        obs.filter = "uvot::" ++ en.filter_name ∧
        obs.processed_fraction = PyNum.float 1 false ∧
        obs.seeing = none ∧ obs.limmag = none) := by
  refine ⟨?_, ?_, ?_⟩
  · rintro (h | h | h) <;>
      cases hu : row.uvot_entries <;>
      cases hr : row.ra_object <;>
      cases hd : row.dec_object <;>
      simp_all [process_row]
  · intro rest h
    simp [fetch_observations_rows, h]
  · intro obs h
    cases hu : row.uvot_entries with
    | none => simp [process_row, hu] at h
    | some entries =>
      cases hr : row.ra_object with
      | none => simp [process_row, hu, hr] at h
      | some ra =>
        cases hd : row.dec_object with
        | none => simp [process_row, hu, hr, hd] at h
        | some dec =>
          cases entries with
          | nil => simp [process_row, hu, hr, hd] at h
          | cons en rest =>
            refine ⟨en, rest, rfl, ?_⟩
            simp only [process_row, hu, hr, hd] at h
            rw [Except.ok.injEq, Option.some.injEq] at h
            subst h
            exact ⟨rfl, rfl, rfl, rfl⟩

/-- A concrete archive row that is dropped for its missing right ascension. -/
def rowDrop : ObsRow :=
  { obsid := 1, uvot_entries := some [{ filter_name := "U" }],
    ra_object := none, dec_object := some 5,
    obstime := 0, exposure_seconds := 100, targname := "t1" }

/-- A concrete archive row that is retained. -/
def rowKeep : ObsRow :=
  { obsid := 2, uvot_entries := some [{ filter_name := "UVW1" }, { filter_name := "V" }],
    ra_object := some 1, dec_object := some 2,
    obstime := 3, exposure_seconds := 4, targname := "t2" }

/-- The normalized observation produced from `rowKeep`. -/
def obsKeep : Observation :=
  { observation_id := 2, obstime := 3, RA := 1, Dec := 2,
    seeing := none, limmag := none, exposure_time := 4,
    filter := "uvot::UVW1", processed_fraction := .float 1 false,
    target_name := "t2" }

/-- Witness for C7 at concrete rows. -/
theorem backfill_row_normalization_witness :
    process_row rowDrop = .ok none ∧
    fetch_observations_rows (rowDrop :: [rowKeep]) = fetch_observations_rows [rowKeep] ∧
    (∃ en rest, rowKeep.uvot_entries = some (en :: rest) ∧
      obsKeep.filter = "uvot::" ++ en.filter_name ∧
      obsKeep.processed_fraction = PyNum.float 1 false ∧
      obsKeep.seeing = none ∧ obsKeep.limmag = none) :=
  ⟨(backfill_row_normalization rowDrop).1 (Or.inr (Or.inl rfl)),
   (backfill_row_normalization rowDrop).2.1 [rowKeep]
     ((backfill_row_normalization rowDrop).1 (Or.inr (Or.inl rfl))),
   (backfill_row_normalization rowKeep).2.2 obsKeep (by rfl)⟩

/-- C9: a `get` call with credentials present and a `request_type` that is
neither `XRT API` nor `XRT/UVOT/BAT Data` raises no error, creates no
Comment, writes no status, schedules nothing, and pushes exactly the refresh
signals the caller asked for. -/
theorem get_other_type_noop (req : FollowupRequest) (alt : Altdata) (rt : String)
    (json_parse : String → Option XRTJobContent) (parse_iso : String → Option Int)
    (complete : Bool) (products : List (String × String × String)) (rs rr : Bool)
    (halt : req.altdata = some alt) (hrt : req.payload.request_type = some rt)
    (h1 : rt ≠ "XRT API") (h2 : rt ≠ "XRT/UVOT/BAT Data") :
    swift_get req json_parse parse_iso complete products rs rr =
      { error := none, comments := [], statusUpdate := none,
        scheduledDownload := false, refreshSource := rs, refreshRequests := rr } := by
  simp [swift_get, halt, hrt, h1, h2]

/-- A concrete ToO-typed request used by the witnesses below. -/
def reqToO : FollowupRequest :=
  { id := 1, obj := objW, altdata := some altW,
    payload := { Payload.empty with request_type := some ("XRT/UVOT ToO") },
    status := "", last_modified_by_id := 7, transactions := [] }

/-- Witness for C9 at a concrete ToO-typed request. -/
theorem get_other_type_noop_witness :
    swift_get reqToO (fun _ => none) (fun _ => none) false [] true false =
      { error := none, comments := [], statusUpdate := none,
        scheduledDownload := false, refreshSource := true, refreshRequests := false } :=
  get_other_type_noop reqToO altW ("XRT/UVOT ToO") (fun _ => none) (fun _ => none)
    false [] true false rfl rfl (by decide) (by decide)

/-- Characterization of a successful ToO payload build: the built object's
urgency is the parsed payload urgency and lies in 0..4, and its monitoring
frequency string comes from an integer payload value rendered as `n days`. -/
theorem build_too_payload_ok_fields (altdata : Altdata) (obj : Obj) (p : Payload)
    (t : SwiftTOO) (h : build_too_payload altdata obj p = .ok t) :
    (∃ s, p.urgency = some s ∧ parsePyInt s = some t.urgency) ∧
    0 ≤ t.urgency ∧ t.urgency ≤ 4 ∧
    (∃ n, p.monitoring_freq = some (PyNum.int n) ∧
      t.monitoring_freq = toString n ++ " days") := by
  unfold build_too_payload at h
  repeat' split at h
  all_goals
    first
      | exact Except.noConfusion h
      | (injection h with h
         subst h
         simp_all
         try omega)

/-- C5: under well-formed earlier payload fields, a ToO build converts
`urgency` with `int()`; the built payload's urgency is that integer and lies
in 0..4, an unparseable urgency raises the conversion ValidationError, and a
parseable value outside 0..4 raises the range ValidationError. -/
theorem too_urgency_validation (altdata : Altdata) (obj : Obj) (p : Payload)
    (u sec st : String) (et : PyNum) (mk : Int) (ec : PyNum) (etj imm : String)
    (h1 : altdata.username = some u) (h2 : altdata.secret = some sec)
    (h3 : p.source_type = some st) (h4 : p.exposure_time = some et)
    (h5 : p.monitoring_freq = some (.int mk)) (h6 : p.exposure_counts = some ec)
    (h7 : p.exp_time_just = some etj) (h8 : p.immediate_objective = some imm) :
    (∀ t, build_too_payload altdata obj p = .ok t →
      ∃ s, p.urgency = some s ∧ parsePyInt s = some t.urgency ∧
        0 ≤ t.urgency ∧ t.urgency ≤ 4) ∧
    (∀ s, p.urgency = some s → parsePyInt s = none →
      build_too_payload altdata obj p = .error (.valueError urgencyConvertMsg)) ∧
    (∀ s n, p.urgency = some s → parsePyInt s = some n → (n < 0 ∨ 4 < n) →
      build_too_payload altdata obj p = .error (.valueError urgencyRangeMsg)) := by
  refine ⟨?_, ?_, ?_⟩
  · intro t h
    obtain ⟨⟨s, hs, hp⟩, hb1, hb2, _⟩ := build_too_payload_ok_fields altdata obj p t h
    exact ⟨s, hs, hp, hb1, hb2⟩
  · intro s hs hp
    simp [build_too_payload, h1, h2, h3, h4, h5, h6, h7, h8, hs, hp]
  · intro s n hs hp hr
    rcases hr with hr | hr <;>
      simp [build_too_payload, h1, h2, h3, h4, h5, h6, h7, h8, hs, hp, hr]

/-- A fully valid concrete ToO payload. -/
def pToO : Payload :=
  { Payload.empty with
    request_type := some ("XRT/UVOT ToO"),
    source_type := some ("Optical fast transient"),
    exposure_time := some (.int 4000),
    monitoring_freq := some (.int 1),
    exposure_counts := some (.int 1),
    exp_time_just := some ("etj"),
    immediate_objective := some ("imm"),
    urgency := some ("3"),
    obs_type := some ("Position"),
    uvot_mode := some ("0x9999 - Default (Filter of the day)"),
    science_just := some ("sci") }

/-- The Swift_TOO object built from `pToO` with `altW` and `objW`. -/
def tToO : SwiftTOO :=
  { username := "u1", shared_secret := "s3cr3t", source_name := "ZTF21abcd",
    ra := 10, dec := -20, source_type := "Optical fast transient",
    exp_time_per_visit := .int 4000, monitoring_freq := "1 days",
    num_of_visits := 1, opt_mag := none, opt_filt := none,
    xrt_countrate := none, exp_time_just := "etj",
    immediate_objective := "imm", urgency := 3, obs_type := "Position",
    uvot_mode := "0x9999", science_just := "sci", uvot_just := none }

/-- The valid ToO payload with an unparseable urgency. -/
def pUrgBad : Payload := { pToO with urgency := some ("high") }

/-- The valid ToO payload with urgency 7, outside 0..4. -/
def pUrgRange : Payload := { pToO with urgency := some ("7") }

/-- Witness for C5 at concrete payloads. -/
theorem too_urgency_validation_witness :
    (∃ s, pToO.urgency = some s ∧ parsePyInt s = some tToO.urgency ∧
      0 ≤ tToO.urgency ∧ tToO.urgency ≤ 4) ∧
    build_too_payload altW objW pUrgBad = .error (.valueError urgencyConvertMsg) ∧
    build_too_payload altW objW pUrgRange = .error (.valueError urgencyRangeMsg) :=
  ⟨(too_urgency_validation altW objW pToO "u1" "s3cr3t" "Optical fast transient"
      (.int 4000) 1 (.int 1) "etj" "imm" rfl rfl rfl rfl rfl rfl rfl rfl).1
      tToO (by rfl),
   (too_urgency_validation altW objW pUrgBad "u1" "s3cr3t" "Optical fast transient"
      (.int 4000) 1 (.int 1) "etj" "imm" rfl rfl rfl rfl rfl rfl rfl rfl).2.1
      ("high") (by rfl) (by rfl),
   (too_urgency_validation altW objW pUrgRange "u1" "s3cr3t" "Optical fast transient"
      (.int 4000) 1 (.int 1) "etj" "imm" rfl rfl rfl rfl rfl rfl rfl rfl).2.2
      ("7") 7 (by rfl) (by rfl) (by decide)⟩

/-- The JSON type the user-facing form schema declares for
`monitoring_freq` (swift.py lines 722-726). -/
def monitoring_freq_schema_type : String := "number"

/-- C10: the ToO payload renders `monitoring_freq` with the integer-only
format code, so any float value raises even though the form schema declares
the field a JSON number; an integer value n renders as `n days`. -/
theorem too_monitoring_freq_integer_format (altdata : Altdata) (obj : Obj)
    (p : Payload) (u sec st : String) (et : PyNum)
    (h1 : altdata.username = some u) (h2 : altdata.secret = some sec)
    (h3 : p.source_type = some st) (h4 : p.exposure_time = some et) :
    (∀ tr fz, p.monitoring_freq = some (.float tr fz) →
      build_too_payload altdata obj p = .error (.valueError formatDMsg)) ∧
    (∀ t, build_too_payload altdata obj p = .ok t →
      ∃ n, p.monitoring_freq = some (PyNum.int n) ∧
        t.monitoring_freq = toString n ++ " days") ∧
    monitoring_freq_schema_type = "number" := by
  refine ⟨?_, ?_, rfl⟩
  · intro tr fz h
    simp [build_too_payload, h1, h2, h3, h4, h]
  · intro t h
    exact (build_too_payload_ok_fields altdata obj p t h).2.2.2

/-- The valid ToO payload with the float 1.5 as monitoring frequency. -/
def pFreqFloat : Payload := { pToO with monitoring_freq := some (.float 1 true) }

/-- Witness for C10 at concrete payloads. -/
theorem too_monitoring_freq_integer_format_witness :
    build_too_payload altW objW pFreqFloat = .error (.valueError formatDMsg) ∧
    (∃ n, pToO.monitoring_freq = some (PyNum.int n) ∧
      tToO.monitoring_freq = toString n ++ " days") :=
  ⟨(too_monitoring_freq_integer_format altW objW pFreqFloat "u1" "s3cr3t"
      ("Optical fast transient") (.int 4000) rfl rfl rfl rfl).1 1 true (by rfl),
   (too_monitoring_freq_integer_format altW objW pToO "u1" "s3cr3t"
      ("Optical fast transient") (.int 4000) rfl rfl rfl rfl).2.1 tToO (by rfl)⟩

/-- C2: for an XRT-API submission (well-formed build and JSON body), a
non-200 response yields status `rejected: <reason>`; a 200 response with the
facility OK flag 0 yields a rejected status carrying the ERROR and listErr
fields; a 200 response with OK nonzero yields status `submitted`. -/
theorem xrt_api_status_assignment (req : FollowupRequest) (alt : Altdata)
    (g : XRTProductReq) (parse_iso : String → Option Int)
    (tooEx : Exchange) (xrtEx : XRTExchange) (b : XRTBody)
    (archive : Option (List ObsRow)) (rs rr : Bool)
    (halt : req.altdata = some alt)
    (hrt : req.payload.request_type = some "XRT API")
    (hbuild : build_xrt_payload alt req.obj req.payload parse_iso = .ok g)
    (hbody : xrtEx.response.body = some b) :
    (xrtEx.response.status_code ≠ 200 →
      ∃ res, swift_submit req parse_iso tooEx xrtEx archive rs rr = .ok res ∧
        res.status = "rejected: " ++ xrtEx.response.reason) ∧
    (xrtEx.response.status_code = 200 → ∀ er le, b.OK = some 0 →
      b.ERROR = some er → b.listErr = some le →
      ∃ res, swift_submit req parse_iso tooEx xrtEx archive rs rr = .ok res ∧
        res.status = "rejected: " ++ pyPairRepr er le) ∧
    (xrtEx.response.status_code = 200 → ∀ k, b.OK = some k → k ≠ 0 →
      ∃ res, swift_submit req parse_iso tooEx xrtEx archive rs rr = .ok res ∧
        res.status = "submitted") := by
  refine ⟨?_, ?_, ?_⟩
  · intro hc
    simp [swift_submit, halt, hrt, submit_xrt, hbuild, hbody, hc, finish_submit,
      Except.map]
  · intro hc er le hok her hle
    simp [swift_submit, halt, hrt, submit_xrt, hbuild, hbody, hc, hok, her, hle,
      finish_submit, Except.map]
  · intro hc k hok hk
    simp [swift_submit, halt, hrt, submit_xrt, hbuild, hbody, hc, hok, hk,
      finish_submit, Except.map]

/-- A concrete XRT-API payload. -/
def pXRT : Payload :=
  { Payload.empty with
    request_type := some ("XRT API"),
    T0 := some ("2024-01-01 00:00:00"),
    centMeth := some ("simple"), detMeth := some ("simple"),
    poserr := some (.int 1) }

/-- A concrete XRT-API request. -/
def reqXRT : FollowupRequest :=
  { id := 2, obj := objW, altdata := some altW, payload := pXRT,
    status := "", last_modified_by_id := 7, transactions := [] }

/-- A concrete iso-time oracle covering the two timestamps the witnesses use. -/
def isoW : String → Option Int := fun s =>
  if s = "2001-01-01 00:00:00" then some 0
  else if s = "2024-01-01 00:00:00" then some 725846400
  else none

/-- The XRT product request built from `pXRT` with `altW`, `objW`, `isoW`. -/
def gXRT : XRTProductReq :=
  { userID := "XU77", getTargs := true, centroid := false, name := "ZTF21abcd",
    ra := 10, dec := -20, centMeth := "simple", detMeth := "simple",
    useSXPS := false, T0 := 725846400, posErr := .int 1 }

/-- A ToO-endpoint exchange that succeeded. -/
def tooExW : Exchange :=
  { request := "POST toop/submit_api.php",
    response := { status_code := 200, reason := "OK", content := "accepted" } }

/-- An XRT-endpoint exchange with a non-200 response. -/
def xrtExRej : XRTExchange :=
  { request := "POST run_userobject.php",
    response := { status_code := 500, reason := "Internal Server Error",
                  body := some { OK := some 1, ERROR := none, listErr := none } } }

/-- An XRT-endpoint exchange with a 200 response whose OK flag is 0. -/
def xrtExOK0 : XRTExchange :=
  { request := "POST run_userobject.php",
    response := { status_code := 200, reason := "OK",
                  body := some { OK := some 0, ERROR := some ("bad target"),
                                 listErr := some ("missing RA") } } }

/-- An XRT-endpoint exchange with a 200 response whose OK flag is 1. -/
def xrtExOK1 : XRTExchange :=
  { request := "POST run_userobject.php",
    response := { status_code := 200, reason := "OK",
                  body := some { OK := some 1, ERROR := none, listErr := none } } }

/-- Witness for C2 at the three concrete exchanges. -/
theorem xrt_api_status_assignment_witness :
    (∃ res, swift_submit reqXRT isoW tooExW xrtExRej none true false = .ok res ∧
      res.status = "rejected: " ++ xrtExRej.response.reason) ∧
    (∃ res, swift_submit reqXRT isoW tooExW xrtExOK0 none true false = .ok res ∧
      res.status = "rejected: " ++ pyPairRepr ("bad target") ("missing RA")) ∧
    (∃ res, swift_submit reqXRT isoW tooExW xrtExOK1 none true false = .ok res ∧
      res.status = "submitted") :=
  ⟨(xrt_api_status_assignment reqXRT altW gXRT isoW tooExW xrtExRej
      { OK := some 1, ERROR := none, listErr := none } none true false
      rfl rfl (by rfl) rfl).1 (by decide),
   (xrt_api_status_assignment reqXRT altW gXRT isoW tooExW xrtExOK0
      { OK := some 0, ERROR := some ("bad target"), listErr := some ("missing RA") }
      none true false rfl rfl (by rfl) rfl).2.1 rfl ("bad target") ("missing RA")
      rfl rfl rfl,
   (xrt_api_status_assignment reqXRT altW gXRT isoW tooExW xrtExOK1
      { OK := some 1, ERROR := none, listErr := none } none true false
      rfl rfl (by rfl) rfl).2.2 rfl 1 rfl (by decide)⟩

/-- The FacilityTransaction recording a ToO-endpoint exchange. -/
def tooTxn (ex : Exchange) (lmb : Nat) : FacilityTransaction :=
  { request := ex.request, response := .too ex.response, initiator_id := lmb }

/-- The FacilityTransaction recording an XRT-endpoint exchange. -/
def xrtTxn (ex : XRTExchange) (lmb : Nat) : FacilityTransaction :=
  { request := ex.request, response := .xrt ex.response, initiator_id := lmb }

/-- C1: every completed ToO or XRT-API submission inserts exactly one
FacilityTransaction pairing the outbound request with its response, alongside
the status assignment; a completed data-query submission inserts no
transaction and sets the status to the count of matching archive records. -/
theorem submit_transaction_invariant (req : FollowupRequest) (alt : Altdata)
    (parse_iso : String → Option Int) (tooEx : Exchange) (xrtEx : XRTExchange)
    (archive : Option (List ObsRow)) (rs rr : Bool)
    (halt : req.altdata = some alt) :
    (req.payload.request_type = some "XRT/UVOT ToO" →
      ∀ res, swift_submit req parse_iso tooEx xrtEx archive rs rr = .ok res →
        res.transactions = [tooTxn tooEx req.last_modified_by_id] ∧
        (res.status = "submitted" ∨ ∃ s, res.status = "rejected: " ++ s)) ∧
    (req.payload.request_type = some "XRT API" →
      ∀ res, swift_submit req parse_iso tooEx xrtEx archive rs rr = .ok res →
        res.transactions = [xrtTxn xrtEx req.last_modified_by_id] ∧
        (res.status = "submitted" ∨ ∃ s, res.status = "rejected: " ++ s)) ∧
    (req.payload.request_type = some "XRT/UVOT/BAT Data" →
      ∀ rows, archive = some rows →
      ∀ res, swift_submit req parse_iso tooEx xrtEx archive rs rr = .ok res →
        res.transactions = [] ∧
        res.status = "Number of observations: " ++ toString rows.length) := by
  refine ⟨?_, ?_, ?_⟩
  · intro hrt res h
    simp only [swift_submit, halt, hrt] at h
    cases hb : build_too_payload alt req.obj req.payload with
    | error e => simp [submit_too, hb, Except.map] at h
    | ok tt =>
      by_cases hc : tooEx.response.status_code = 200 <;>
        · simp [submit_too, hb, hc, finish_submit, Except.map] at h
          simp [← h, tooTxn]
  · intro hrt res h
    simp only [swift_submit, halt, hrt] at h
    cases hb : build_xrt_payload alt req.obj req.payload parse_iso with
    | error e => simp [submit_xrt, hb, Except.map] at h
    | ok g =>
      cases hbody : xrtEx.response.body with
      | none => simp [submit_xrt, hb, hbody, Except.map] at h
      | some b =>
        by_cases hc : xrtEx.response.status_code = 200
        · cases hok : b.OK with
          | none => simp [submit_xrt, hb, hbody, hc, hok, Except.map] at h
          | some k =>
            by_cases hk : k = 0
            · cases her : b.ERROR with
              | none => simp [submit_xrt, hb, hbody, hc, hok, hk, her, Except.map] at h
              | some er =>
                cases hle : b.listErr with
                | none =>
                  simp [submit_xrt, hb, hbody, hc, hok, hk, her, hle, Except.map] at h
                | some le =>
                  simp [submit_xrt, hb, hbody, hc, hok, hk, her, hle,
                    finish_submit, Except.map] at h
                  simp [← h, xrtTxn]
            · simp [submit_xrt, hb, hbody, hc, hok, hk, finish_submit,
                Except.map] at h
              simp [← h, xrtTxn]
        · simp [submit_xrt, hb, hbody, hc, finish_submit, Except.map] at h
          simp [← h, xrtTxn]
  · intro hrt rows harch res h
    simp only [swift_submit, halt, hrt] at h
    cases hsd : req.payload.start_date with
    | none => simp [submit_data, hsd, Except.map] at h
    | some sd =>
      cases hed : req.payload.end_date with
      | none => simp [submit_data, hsd, hed, Except.map] at h
      | some ed =>
        simp [submit_data, hsd, hed, harch, finish_submit, Except.map] at h
        simp [← h]

/-- A concrete ToO request with the fully valid payload. -/
def reqTooFull : FollowupRequest :=
  { id := 3, obj := objW, altdata := some altW, payload := pToO,
    status := "", last_modified_by_id := 7, transactions := [] }

/-- A concrete data-query payload. -/
def pData : Payload :=
  { Payload.empty with
    request_type := some ("XRT/UVOT/BAT Data"),
    start_date := some ("2023-01-01 00:00:00"),
    end_date := some ("2024-01-01 00:00:00"),
    XRT := some true }

/-- A concrete data-query request. -/
def reqData : FollowupRequest :=
  { id := 4, obj := objW, altdata := some altW, payload := pData,
    status := "", last_modified_by_id := 7, transactions := [] }

/-- The submit result for `reqTooFull` against `tooExW`. -/
def resTooW : SubmitResult :=
  { status := "submitted", transactions := [tooTxn tooExW 7],
    refreshSource := true, refreshRequests := false, notificationType := "none" }

/-- The submit result for `reqXRT` against `xrtExOK1`. -/
def resXrtW : SubmitResult :=
  { status := "submitted", transactions := [xrtTxn xrtExOK1 7],
    refreshSource := true, refreshRequests := false, notificationType := "none" }

/-- The submit result for `reqData` against a two-row archive. -/
def resDataW : SubmitResult :=
  { status := "Number of observations: 2", transactions := [],
    refreshSource := true, refreshRequests := false, notificationType := "none" }

/-- Witness for C1 at concrete submissions for all three request types. -/
theorem submit_transaction_invariant_witness :
    (resTooW.transactions = [tooTxn tooExW 7] ∧
      (resTooW.status = "submitted" ∨ ∃ s, resTooW.status = "rejected: " ++ s)) ∧
    (resXrtW.transactions = [xrtTxn xrtExOK1 7] ∧
      (resXrtW.status = "submitted" ∨ ∃ s, resXrtW.status = "rejected: " ++ s)) ∧
    (resDataW.transactions = [] ∧
      resDataW.status = "Number of observations: " ++
        toString ([rowDrop, rowKeep].length)) :=
  ⟨(submit_transaction_invariant reqTooFull altW isoW tooExW xrtExOK1 none
      true false rfl).1 rfl resTooW (by rfl),
   (submit_transaction_invariant reqXRT altW isoW tooExW xrtExOK1 none
      true false rfl).2.1 rfl resXrtW (by rfl),
   (submit_transaction_invariant reqData altW isoW tooExW xrtExOK1
      (some [rowDrop, rowKeep]) true false rfl).2.2 rfl [rowDrop, rowKeep]
      rfl resDataW (by rfl)⟩

/-- C8: a `get` on an XRT-API request whose reconstructed job state is not
complete raises the recoverable ResultNotReady error, creating no Comment,
writing no status, and mutating no state. -/
theorem get_result_not_ready (req : FollowupRequest) (alt : Altdata)
    (tr : StoredTransaction) (content : XRTJobContent) (g : XRTProductReq)
    (k : Int) (jid url jp : String)
    (json_parse : String → Option XRTJobContent) (parse_iso : String → Option Int)
    (products : List (String × String × String)) (rs rr : Bool)
    (halt : req.altdata = some alt)
    (hrt : req.payload.request_type = some "XRT API")
    (htr : req.transactions.getLast? = some tr)
    (hjson : json_parse tr.response_content = some content)
    (hbuild : build_xrt_payload alt req.obj req.payload parse_iso = .ok g)
    (hok : content.OK = some k) (hjid : content.JobID = some jid)
    (hurl : content.URL = some url) (hjp : content.jobPars = some jp) :
    swift_get req json_parse parse_iso false products rs rr =
      { error := some (.valueError notReadyMsg), comments := [],
        statusUpdate := none, scheduledDownload := false,
        refreshSource := false, refreshRequests := false } := by
  simp [swift_get, halt, hrt, htr, hjson, hbuild, hok, hjid, hurl, hjp, abortGet]

/-- A concrete stored transaction whose response content parses to a pending
job state. -/
def trW : StoredTransaction := { response_content := "jobresp" }

/-- The parsed job content of `trW`. -/
def contentW : XRTJobContent :=
  { OK := some 0, JobID := some ("J1"), URL := some ("u/j1"),
    jobPars := some ("pars") }

/-- A concrete JSON-parse oracle covering `trW`. -/
def jpW : String → Option XRTJobContent := fun s =>
  if s = "jobresp" then some contentW else none

/-- The XRT-API request carrying `trW` as its stored transaction. -/
def reqXRTTx : FollowupRequest := { reqXRT with transactions := [trW] }

/-- Witness for C8 at a concrete pending XRT-API request. -/
theorem get_result_not_ready_witness :
    swift_get reqXRTTx jpW isoW false [] true true =
      { error := some (.valueError notReadyMsg), comments := [],
        statusUpdate := none, scheduledDownload := false,
        refreshSource := false, refreshRequests := false } :=
  get_result_not_ready reqXRTTx altW trW contentW gXRT 0 ("J1") ("u/j1") ("pars")
    jpW isoW [] true true rfl rfl rfl rfl (by rfl) rfl rfl rfl rfl

/-- Python `tuple.index` fails exactly on absent values. -/
theorem listIndex_eq_none_of_not_mem (x : String) (l : List String) (h : x ∉ l) :
    listIndex x l = none := by
  induction l with
  | nil => rfl
  | cons a t ih =>
    simp only [List.mem_cons, not_or] at h
    simp [listIndex, Ne.symm h.1, ih h.2]

/-- Python `tuple.index` succeeds exactly on present values. -/
theorem listIndex_mem (x : String) (l : List String) (h : x ∈ l) :
    ∃ i, listIndex x l = some i := by
  induction l with
  | nil => simp at h
  | cons a t ih =>
    by_cases ha : a = x
    · exact ⟨0, by simp [listIndex, ha]⟩
    · rcases List.mem_cons.mp h with h1 | h2
      · exact absurd h1.symm ha
      · obtain ⟨i, hi⟩ := ih h2
        exact ⟨i + 1, by simp [listIndex, ha, hi]⟩

/-- C4 (amended): with the earlier ToO fields well formed, a `uvot_mode`
display string outside the 16-entry table fails with the index
ValidationError; a valid non-default mode with `uvot_just` absent fails with
the justification ValidationError; and a valid non-default mode with a
non-empty `uvot_just` builds successfully (an empty supplied `uvot_just` is
treated as missing, which is the amendment). -/
theorem too_uvot_mode_validation (altdata : Altdata) (obj : Obj) (p : Payload)
    (u sec st : String) (et : PyNum) (mk : Int) (ec : PyNum)
    (etj imm us : String) (n : Int) (ot sj : String)
    (h1 : altdata.username = some u) (h2 : altdata.secret = some sec)
    (h3 : p.source_type = some st) (h4 : p.exposure_time = some et)
    (h5 : p.monitoring_freq = some (.int mk)) (h6 : p.exposure_counts = some ec)
    (h7 : p.exp_time_just = some etj) (h8 : p.immediate_objective = some imm)
    (h9 : p.urgency = some us) (h10 : parsePyInt us = some n)
    (h11 : 0 ≤ n) (h12 : n ≤ 4)
    (h13 : p.obs_type = some ot)
    (h14 : ot ∈ ["Spectroscopy", "Light Curve", "Position", "Timing"])
    (h15 : p.science_just = some sj) :
    (∀ um, p.uvot_mode = some um → um ∉ modes_values →
      build_too_payload altdata obj p = .error (.valueError tupleIndexMsg)) ∧
    (∀ um, p.uvot_mode = some um → um ∈ modes_values →
      modeKeyOf um ≠ "0x9999" → p.uvot_just = none →
      build_too_payload altdata obj p = .error (.valueError uvotJustMsg)) ∧
    (∀ um uj, p.uvot_mode = some um → um ∈ modes_values →
      modeKeyOf um ≠ "0x9999" → p.uvot_just = some uj → uj ≠ "" →
      ∃ t, build_too_payload altdata obj p = .ok t) := by
  have hn1 : ¬(n < 0) := not_lt.mpr h11
  have hn2 : ¬(n > 4) := not_lt.mpr h12
  refine ⟨?_, ?_, ?_⟩
  · intro um hum hnm
    have hidx := listIndex_eq_none_of_not_mem um modes_values hnm
    simp [build_too_payload, h1, h2, h3, h4, h5, h6, h7, h8, h9, h10,
      hn1, hn2, h13, h14, h15, hum, hidx]
  · intro um hum hmem hkey hju
    obtain ⟨i, hi⟩ := listIndex_mem um modes_values hmem
    simp only [modeKeyOf, hi, Option.getD_some, List.getD,
      List.get?_eq_getElem?] at hkey
    simp [build_too_payload, h1, h2, h3, h4, h5, h6, h7, h8, h9, h10,
      hn1, hn2, h13, h14, h15, hum, hi, hju, hkey, List.getD]
  · intro um uj hum hmem hkey hju hne
    obtain ⟨i, hi⟩ := listIndex_mem um modes_values hmem
    simp only [modeKeyOf, hi, Option.getD_some, List.getD,
      List.get?_eq_getElem?] at hkey
    simp [build_too_payload, h1, h2, h3, h4, h5, h6, h7, h8, h9, h10,
      hn1, hn2, h13, h14, h15, hum, hi, hju, hne, hkey, List.getD]

/-- The valid ToO payload selecting a non-default mode with an empty
supplied `uvot_just`. -/
def pModeJustEmpty : Payload :=
  { pToO with
    uvot_mode := some ("0x30ed - U+B+V+All UV"),
    uvot_just := some ("") }

/-- C4 counterexample: `uvot_just` is supplied (the key is present) for a
valid non-default mode, yet building the payload fails, because the empty
string is falsy in the requiredness check. -/
theorem too_uvot_just_supplied_counterexample :
    pModeJustEmpty.uvot_just = some ("") ∧
    build_too_payload altW objW pModeJustEmpty =
      .error (.valueError uvotJustMsg) :=
  ⟨rfl, by rfl⟩

/-- The valid ToO payload with a display string outside the mode table. -/
def pModeBad : Payload := { pToO with uvot_mode := some ("0x1234 - Bogus") }

/-- The valid ToO payload with a non-default mode and no `uvot_just`. -/
def pModeNoJust : Payload :=
  { pToO with uvot_mode := some ("0x30ed - U+B+V+All UV") }

/-- The valid ToO payload with a non-default mode and a non-empty `uvot_just`. -/
def pModeJust : Payload :=
  { pToO with
    uvot_mode := some ("0x30ed - U+B+V+All UV"),
    uvot_just := some ("map the SED") }

/-- Witness for C4 at concrete payloads. -/
theorem too_uvot_mode_validation_witness :
    build_too_payload altW objW pModeBad = .error (.valueError tupleIndexMsg) ∧
    build_too_payload altW objW pModeNoJust = .error (.valueError uvotJustMsg) ∧
    (∃ t, build_too_payload altW objW pModeJust = .ok t) :=
  ⟨(too_uvot_mode_validation altW objW pModeBad "u1" "s3cr3t"
      ("Optical fast transient") (.int 4000) 1 (.int 1) "etj" "imm" "3" 3
      ("Position") "sci" rfl rfl rfl rfl rfl rfl rfl rfl rfl (by rfl)
      (by decide) (by decide) rfl (by decide) rfl).1
      ("0x1234 - Bogus") rfl (by decide),
   (too_uvot_mode_validation altW objW pModeNoJust "u1" "s3cr3t"
      ("Optical fast transient") (.int 4000) 1 (.int 1) "etj" "imm" "3" 3
      ("Position") "sci" rfl rfl rfl rfl rfl rfl rfl rfl rfl (by rfl)
      (by decide) (by decide) rfl (by decide) rfl).2.1
      ("0x30ed - U+B+V+All UV") rfl (by decide) (by decide) rfl,
   (too_uvot_mode_validation altW objW pModeJust "u1" "s3cr3t"
      ("Optical fast transient") (.int 4000) 1 (.int 1) "etj" "imm" "3" 3
      ("Position") "sci" rfl rfl rfl rfl rfl rfl rfl rfl rfl (by rfl)
      (by decide) (by decide) rfl (by decide) rfl).2.2
      ("0x30ed - U+B+V+All UV") ("map the SED") rfl (by decide) (by decide)
      rfl (by decide)⟩

/-- No error raised inside the ToO payload build is the dispatch error. -/
theorem build_too_payload_error_ne_invalid (altdata : Altdata) (obj : Obj)
    (p : Payload) (e : PyErr) (h : build_too_payload altdata obj p = .error e) :
    e ≠ .valueError invalidRequestTypeMsg := by
  unfold build_too_payload at h
  repeat' split at h
  all_goals first
    | exact Except.noConfusion h
    | (injection h with h
       subst h
       decide)

/-- No error raised inside the XRT payload build is the dispatch error. -/
theorem build_xrt_payload_error_ne_invalid (altdata : Altdata) (obj : Obj)
    (p : Payload) (parse_iso : String → Option Int) (e : PyErr)
    (h : build_xrt_payload altdata obj p parse_iso = .error e) :
    e ≠ .valueError invalidRequestTypeMsg := by
  unfold build_xrt_payload at h
  repeat' split at h
  all_goals first
    | exact Except.noConfusion h
    | (injection h with h
       subst h
       decide)

/-- No error raised on the ToO submission branch is the dispatch error. -/
theorem submit_too_error_ne_invalid (alt : Altdata) (obj : Obj) (p : Payload)
    (lmb : Nat) (ex : Exchange) (e : PyErr)
    (h : submit_too alt obj p lmb ex = .error e) :
    e ≠ .valueError invalidRequestTypeMsg := by
  unfold submit_too at h
  cases hb : build_too_payload alt obj p with
  | error e2 =>
    rw [hb] at h
    injection h with h
    exact h ▸ build_too_payload_error_ne_invalid alt obj p e2 hb
  | ok tt =>
    rw [hb] at h
    simp at h

/-- No error raised on the XRT-API submission branch is the dispatch error. -/
theorem submit_xrt_error_ne_invalid (alt : Altdata) (obj : Obj) (p : Payload)
    (lmb : Nat) (parse_iso : String → Option Int) (ex : XRTExchange) (e : PyErr)
    (h : submit_xrt alt obj p lmb parse_iso ex = .error e) :
    e ≠ .valueError invalidRequestTypeMsg := by
  unfold submit_xrt at h
  cases hb : build_xrt_payload alt obj p parse_iso with
  | error e2 =>
    rw [hb] at h
    injection h with h
    exact h ▸ build_xrt_payload_error_ne_invalid alt obj p parse_iso e2 hb
  | ok g =>
    rw [hb] at h
    repeat' split at h
    all_goals try contradiction
    all_goals injection h with h
    all_goals subst h
    all_goals decide

/-- No error raised on the data-query submission branch is the dispatch error. -/
theorem submit_data_error_ne_invalid (p : Payload)
    (archive : Option (List ObsRow)) (e : PyErr)
    (h : submit_data p archive = .error e) :
    e ≠ .valueError invalidRequestTypeMsg := by
  unfold submit_data at h
  repeat' split at h
  all_goals first
    | exact Except.noConfusion h
    | (injection h with h
       subst h
       decide)

/-- C3 (amended): with credentials present, a request whose payload lacks
`request_type` fails with a KeyError (not the dispatch ValidationError); a
present value outside the three known types fails with the dispatch
ValidationError; and each of the three known types dispatches submit to the
corresponding builder branch and never raises the dispatch error. -/
theorem submit_dispatch_on_request_type (req : FollowupRequest) (alt : Altdata)
    (parse_iso : String → Option Int) (tooEx : Exchange) (xrtEx : XRTExchange)
    (archive : Option (List ObsRow)) (rs rr : Bool)
    (halt : req.altdata = some alt) :
    (req.payload.request_type = none →
      swift_submit req parse_iso tooEx xrtEx archive rs rr =
        .error (.keyError ("request_type"))) ∧
    (∀ rt, req.payload.request_type = some rt →
      rt ∉ ["XRT/UVOT ToO", "XRT API", "XRT/UVOT/BAT Data"] →
      swift_submit req parse_iso tooEx xrtEx archive rs rr =
        .error (.valueError invalidRequestTypeMsg)) ∧
    (req.payload.request_type = some "XRT/UVOT ToO" →
      swift_submit req parse_iso tooEx xrtEx archive rs rr =
        (submit_too alt req.obj req.payload req.last_modified_by_id tooEx).map
          (finish_submit alt rs rr)) ∧
    (req.payload.request_type = some "XRT API" →
      swift_submit req parse_iso tooEx xrtEx archive rs rr =
        (submit_xrt alt req.obj req.payload req.last_modified_by_id parse_iso
          xrtEx).map (finish_submit alt rs rr)) ∧
    (req.payload.request_type = some "XRT/UVOT/BAT Data" →
      swift_submit req parse_iso tooEx xrtEx archive rs rr =
        (submit_data req.payload archive).map (finish_submit alt rs rr)) ∧
    (∀ rt, req.payload.request_type = some rt →
      rt ∈ ["XRT/UVOT ToO", "XRT API", "XRT/UVOT/BAT Data"] →
      swift_submit req parse_iso tooEx xrtEx archive rs rr ≠
        .error (.valueError invalidRequestTypeMsg)) := by
  refine ⟨?_, ?_, ?_, ?_, ?_, ?_⟩
  · intro h
    simp [swift_submit, halt, h]
  · intro rt hrt hmem
    simp only [List.mem_cons, List.mem_singleton, not_or] at hmem
    simp [swift_submit, halt, hrt, hmem.1, hmem.2.1, hmem.2.2]
  · intro hrt
    simp [swift_submit, halt, hrt]
  · intro hrt
    simp [swift_submit, halt, hrt]
  · intro hrt
    simp [swift_submit, halt, hrt]
  · intro rt hrt hmem hcontra
    simp only [List.mem_cons, List.mem_singleton] at hmem
    rcases hmem with rfl | rfl | rfl | hfalse
    · simp [swift_submit, halt, hrt] at hcontra
      cases hs : submit_too alt req.obj req.payload req.last_modified_by_id tooEx with
      | ok v => rw [hs] at hcontra; simp [Except.map] at hcontra
      | error e2 =>
        rw [hs] at hcontra
        simp [Except.map] at hcontra
        exact submit_too_error_ne_invalid alt req.obj req.payload
          req.last_modified_by_id tooEx e2 hs hcontra
    · simp [swift_submit, halt, hrt] at hcontra
      cases hs : submit_xrt alt req.obj req.payload req.last_modified_by_id
          parse_iso xrtEx with
      | ok v => rw [hs] at hcontra; simp [Except.map] at hcontra
      | error e2 =>
        rw [hs] at hcontra
        simp [Except.map] at hcontra
        exact submit_xrt_error_ne_invalid alt req.obj req.payload
          req.last_modified_by_id parse_iso xrtEx e2 hs hcontra
    · simp [swift_submit, halt, hrt] at hcontra
      cases hs : submit_data req.payload archive with
      | ok v => rw [hs] at hcontra; simp [Except.map] at hcontra
      | error e2 =>
        rw [hs] at hcontra
        simp [Except.map] at hcontra
        exact submit_data_error_ne_invalid req.payload archive e2 hs hcontra
    · exact absurd hfalse (List.not_mem_nil rt)

/-- A concrete request whose payload has no `request_type` key. -/
def reqNoType : FollowupRequest :=
  { id := 5, obj := objW, altdata := some altW, payload := Payload.empty,
    status := "", last_modified_by_id := 7, transactions := [] }

/-- A concrete request whose `request_type` is not one of the three values. -/
def reqBadType : FollowupRequest :=
  { id := 6, obj := objW, altdata := some altW,
    payload := { Payload.empty with request_type := some ("bogus") },
    status := "", last_modified_by_id := 7, transactions := [] }

/-- C3 counterexample: with credentials present and `request_type` absent,
submit fails with a KeyError and with no ValidationError of any message,
contradicting the claim that the absent case fails with a ValidationError. -/
theorem submit_missing_request_type_counterexample :
    swift_submit reqNoType isoW tooExW xrtExOK1 none false false =
      .error (.keyError ("request_type")) ∧
    ¬ ∃ msg, swift_submit reqNoType isoW tooExW xrtExOK1 none false false =
      .error (.valueError msg) := by
  have h : swift_submit reqNoType isoW tooExW xrtExOK1 none false false =
      .error (.keyError ("request_type")) := by rfl
  exact ⟨h, by simp [h]⟩

/-- Witness for C3 at concrete requests of each kind. -/
theorem submit_dispatch_on_request_type_witness :
    swift_submit reqNoType isoW tooExW xrtExOK1 none false false =
      .error (.keyError ("request_type")) ∧
    swift_submit reqBadType isoW tooExW xrtExOK1 none false false =
      .error (.valueError invalidRequestTypeMsg) ∧
    swift_submit reqTooFull isoW tooExW xrtExOK1 none true false ≠
      .error (.valueError invalidRequestTypeMsg) :=
  ⟨(submit_dispatch_on_request_type reqNoType altW isoW tooExW xrtExOK1 none
      false false rfl).1 rfl,
   (submit_dispatch_on_request_type reqBadType altW isoW tooExW xrtExOK1 none
      false false rfl).2.1 ("bogus") rfl (by decide),
   (submit_dispatch_on_request_type reqTooFull altW isoW tooExW xrtExOK1 none
      true false rfl).2.2.2.2.2 ("XRT/UVOT ToO") rfl (by decide)⟩
